import Mathlib

/-!
Verification of the promotional-email campaign pipeline of the
ShirijaangaServer repository (a Node/Express backend).

The development shallowly embeds the JavaScript source:

* models/EmailConfigModel.js (src/unnamed/part_003): the sender
  configuration schema and its instance methods.
* the PromotionalEmail mongoose schema found in src/unnamed/part_005.
* controllers/PromotionalEmailController.js (the second document of
  src/controllers/analyticsController.js): the campaign start handler,
  the background batch loop and the cancel handler.
* utils/email.util.js: the EmailService singleton with its transporter
  cache and per-send statistics updates.

JavaScript numbers are modelled as Nat (all quantities in scope are
non-negative integers); Math.round on a non-negative quotient a / b is
modelled exactly by jsRound.  Dates are modelled as calendar dates plus a
time-of-day component that toDateString ignores.
-/

/-- Math.round for the non-negative quotient a / b: rounds half up.
For b = 0 the JavaScript source never reaches the division unguarded. -/
def jsRound (a b : Nat) : Nat := (2 * a + b) / (2 * b)

/-- A JavaScript Date: calendar date plus a time-of-day component in
milliseconds.  toDateString discards the time of day. -/
structure JsDate where
  year : Nat
  month : Nat
  day : Nat
  ms : Nat := 0
deriving DecidableEq

/-- Date.prototype.toDateString: two timestamps compare equal exactly when
they fall on the same calendar day. -/
def JsDate.toDateString (d : JsDate) : Nat × Nat × Nat := (d.year, d.month, d.day)

/-- The string interpolation YYYY-MM used for the currentMonth field. -/
def JsDate.monthKey (d : JsDate) : Nat × Nat := (d.year, d.month)

/-- The EmailConfig schema of models/EmailConfigModel.js
(src/unnamed/part_003 lines 3 to 113).  The id field stands for the
mongoose document identifier. -/
structure EmailConfig where
  id : Nat := 0
  service : String := "gmail"
  email : String
  appPassword : String
  fromName : String := "EduConnect Consultancy"
  isActive : Bool := true
  dailyLimit : Nat := 500
  emailsSentToday : Nat := 0
  lastResetDate : JsDate
  monthlyEmailsSent : Nat := 0
  currentMonth : Nat × Nat
  totalEmailsSent : Nat := 0
  totalEmailsFailed : Nat := 0
  successRate : Nat := 0
  errorCount : Nat := 0
  lastErrorMessage : String := ""
  lastErrorAt : Option JsDate := none
  consecutiveFailures : Nat := 0
  lastSuccessfulSend : Option JsDate := none
  averageSendTime : Nat := 0
  lastUsedIP : Option String := none
  suspiciousActivityCount : Nat := 0
  lastSuspiciousActivity : Option JsDate := none
deriving DecidableEq

/-- EmailConfigSchema.methods.resetDailyCounterIfNeeded
(src/unnamed/part_003 lines 116 to 133): zero the daily counter when the
calendar day has rolled over, then zero the monthly counter when the
month has rolled over.  The final save persists the document. -/
def resetDailyCounterIfNeeded (c : EmailConfig) (now : JsDate) : EmailConfig :=
  let c1 := if now.toDateString ≠ c.lastResetDate.toDateString
            then { c with emailsSentToday := 0, lastResetDate := now }
            else c
  if c1.currentMonth ≠ now.monthKey
  then { c1 with monthlyEmailsSent := 0, currentMonth := now.monthKey }
  else c1

/-- EmailConfigSchema.methods.updateSuccessRate (src/unnamed/part_003
lines 136 to 141): successRate is the rounded percentage of lifetime
successes over lifetime attempts, 0 when there has been no attempt. -/
def updateSuccessRate (c : EmailConfig) : EmailConfig :=
  let totalAttempts := c.totalEmailsSent + c.totalEmailsFailed
  { c with successRate :=
      if totalAttempts > 0 then jsRound (c.totalEmailsSent * 100) totalAttempts else 0 }

/-- EmailConfigSchema.methods.recordSuccessfulSend (src/unnamed/part_003
lines 144 to 160).  The running average is only updated when sendTime is
truthy, that is, non-zero. -/
def recordSuccessfulSend (c : EmailConfig) (sendTime : Nat) (now : JsDate) : EmailConfig :=
  let c1 := { c with
    totalEmailsSent := c.totalEmailsSent + 1,
    emailsSentToday := c.emailsSentToday + 1,
    monthlyEmailsSent := c.monthlyEmailsSent + 1,
    lastSuccessfulSend := some now,
    consecutiveFailures := 0 }
  let c2 := if sendTime ≠ 0 then
      let totalSends := c1.totalEmailsSent + c1.totalEmailsFailed
      { c1 with averageSendTime :=
          jsRound (c1.averageSendTime * (totalSends - 1) + sendTime) totalSends }
    else c1
  updateSuccessRate c2

/-- EmailConfigSchema.methods.recordFailedSend (src/unnamed/part_003
lines 163 to 170). -/
def recordFailedSend (c : EmailConfig) (errorMessage : String) (now : JsDate) : EmailConfig :=
  updateSuccessRate { c with
    totalEmailsFailed := c.totalEmailsFailed + 1,
    errorCount := c.errorCount + 1,
    consecutiveFailures := c.consecutiveFailures + 1,
    lastErrorMessage := errorMessage,
    lastErrorAt := some now }

/-- EmailConfigSchema.methods.recordSuspiciousActivity
(src/unnamed/part_003 lines 173 to 178). -/
def recordSuspiciousActivity (c : EmailConfig) (ipAddress : String) (now : JsDate) : EmailConfig :=
  { c with
    suspiciousActivityCount := c.suspiciousActivityCount + 1,
    lastSuspiciousActivity := some now,
    lastUsedIP := some ipAddress }

/-- Field paths declared by the PromotionalEmailSchema found in src
(src/unnamed/part_005 lines 90 to 135), including the two timestamps
added by the timestamps schema option.  This schema declares neither
totalRecipients nor progress nor startTime, and its status enum is
only sending, completed, failed. -/
def promotionalEmailSchemaFields : List String :=
  ["title", "content", "buttonText", "buttonLink", "contactEmail", "contactPhone",
   "sentCount", "failedCount", "status", "configUsed", "createdAt", "updatedAt"]

/-- The status enum of the PromotionalEmailSchema in src
(src/unnamed/part_005 lines 123 to 127). -/
def promotionalEmailStatusEnum : List String := ["sending", "completed", "failed"]

/-- Keys passed to PromotionalEmail.create by the campaign start handler
(controllers, sendPromotionalEmail, lines 364 to 375). -/
def promotionalEmailCreateKeys : List String :=
  ["title", "content", "buttonText", "buttonLink", "contactEmail", "contactPhone",
   "configUsed", "status", "totalRecipients", "startTime"]

/-- Mongoose strict mode (the default, and the schema sets no strict
option): only paths declared by the schema are persisted; unknown keys
are silently dropped on create and save. -/
def persistedKeys (keys : List String) : List String :=
  keys.filter (fun k => promotionalEmailSchemaFields.contains k)

/-- The PromotionalEmail schema as src registers it (src/unnamed/part_005
lines 90 to 137).  This is the only registration of the mongoose model
PromotionalEmail in the repository, hence the model that the controller
require of models/PromotionalEmailModel resolves to.  It declares
exactly these paths (plus the two timestamps) and no instance methods:
the addError, addPerformanceLog and updateStats calls of the controller,
and its totalRecipients, progress, startTime, endTime, duration,
averageSendTime, errors and performanceLog writes, all target methods
and paths this schema does not define. -/
structure CampaignRecord where
  title : String
  content : String
  buttonText : String := "Book Now"
  buttonLink : String
  contactEmail : String
  contactPhone : String
  sentCount : Nat := 0
  failedCount : Nat := 0
  status : String := "sending"
  configUsed : Nat
deriving DecidableEq

/-- A student as used by the campaign pipeline: the controller queries
students whose email matches the address regex, and the template renders
first and last name. -/
structure Student where
  firstName : String
  lastName : String
  email : String
deriving DecidableEq

/-- The synchronous response of the campaign start handler. -/
inductive StartResponse where
  /-- 400: a required content field is missing (falsy). -/
  | validationError
  /-- 400: no active email configuration found. -/
  | noActiveConfig
  /-- 400: no students with valid email addresses found. -/
  | noValidStudents
  /-- 400: daily email limit exceeded (remaining quota and recipient count). -/
  | quotaExceeded (remaining : Int) (needed : Nat)
  /-- 200: campaign accepted, record created, background send started. -/
  | accepted (record : CampaignRecord)
deriving DecidableEq

/-- The campaign start handler sendPromotionalEmail
(controllers, lines 313 to 399) up to the point where the background
sender is spawned.  Parameters: the request body fields (an absent or
empty field is the falsy case), the result of the active-config lookup,
the list of students that already passed the valid-email query filter,
and the current time.  Returns the HTTP outcome, the persisted email
configuration after the call, and the campaign record created, if any. -/
def sendPromotionalEmail (title content buttonText buttonLink contactEmail contactPhone : String)
    (activeConfig : Option EmailConfig) (students : List Student) (now : JsDate) :
    StartResponse × Option EmailConfig × Option CampaignRecord :=
  if title = "" ∨ content = "" ∨ buttonLink = "" ∨ contactEmail = "" ∨ contactPhone = "" then
    (.validationError, activeConfig, none)
  else
    match activeConfig with
    | none => (.noActiveConfig, none, none)
    | some emailConfig =>
      if students.isEmpty then (.noValidStudents, some emailConfig, none)
      else
        let emailConfig := resetDailyCounterIfNeeded emailConfig now
        let remainingEmails : Int :=
          (emailConfig.dailyLimit : Int) - (emailConfig.emailsSentToday : Int)
        if remainingEmails < (students.length : Int) then
          (.quotaExceeded remainingEmails students.length, some emailConfig, none)
        else
          -- the create call also passes totalRecipients and startTime
          -- (promotionalEmailCreateKeys); the schema declares neither
          -- path, so strict mode drops both and this is the persisted
          -- record
          let record : CampaignRecord := {
            title := title.trim,
            content := content.trim,
            buttonText := (if buttonText = "" then "Book Now" else buttonText).trim,
            buttonLink := buttonLink.trim,
            contactEmail := contactEmail.trim,
            contactPhone := contactPhone.trim,
            configUsed := emailConfig.id,
            status := "sending" }
          (.accepted record, some emailConfig, some record)

/-- The fixed batch size of the background sender (controllers line 406). -/
def batchSize : Nat := 10

/-- The fixed inter-batch delay in milliseconds (controllers line 407).
No run against the in-src model ever reaches the sleep on line 468. -/
def delayBetweenBatches : Nat := 2000

/-- The outcome the delivery channel reports for one recipient: success,
or failure with an error message (either a falsy result.success or a
thrown error, both of which the loop treats as a failure). -/
structure SendOutcome where
  success : Bool
  errMsg : String := "send failed"
deriving DecidableEq

/-- A thrown JavaScript error. -/
inductive JsError where
  /-- calling a property that is not a function, here one of the schema
  methods the in-src PromotionalEmail model never defines -/
  | typeError (message : String)
deriving DecidableEq

/-- How one run of sendEmailsInBackground ends. -/
inductive BgOutcome where
  /-- a TypeError was caught by the outer catch block, whose own
  addError call then threw again before the save on line 489: the run
  ends as an unhandled rejection after having dispatched only the given
  number of batches -/
  | aborted (caught : JsError) (batchesDispatched : Nat)
  /-- every batch was processed and the completion save succeeded -/
  | completed
deriving DecidableEq

/-- Observable result of one run of sendEmailsInBackground: how it
ended, the persisted record afterwards, and the inter-batch sleeps
performed. -/
structure BgRun where
  outcome : BgOutcome
  persisted : CampaignRecord
  delays : List Nat
deriving DecidableEq

/-- sendEmailsInBackground (controllers lines 402 to 491) run against
the PromotionalEmail model that src registers (part_005), which defines
no addError, addPerformanceLog or updateStats.  With at least one
recipient, batch 1 is dispatched and then the first call of a missing
record method throws a TypeError: addError on the first failed send of
the batch (line 438 or 446), otherwise addPerformanceLog at the batch
boundary (line 461).  The outer catch sets status failed only in
memory, then its own addError call (line 488) throws again, so the save
on line 489 is never reached: the run aborts with no persisted write,
no performance-log entry (the schema has no such path), no later batch
and no inter-batch sleep (the sleep on line 468 follows the throwing
call).  Only an empty recipient list reaches the completion write,
whose status value completed the enum accepts; the controller never
starts such a run (the no-students check precedes the create).  The
outcomes list gives the delivery result per recipient in input order. -/
def sendEmailsInBackground (students : List Student) (outcomes : List SendOutcome)
    (record : CampaignRecord) : BgRun :=
  match students with
  | [] =>
    { outcome := .completed,
      persisted := { record with status := "completed" },
      delays := [] }
  | _ :: _ =>
    let firstBatch := (students.zip outcomes).take batchSize
    let caught : JsError := if firstBatch.all (fun p => p.2.success)
      then .typeError "promotionalEmail.addPerformanceLog is not a function"
      else .typeError "promotionalEmail.addError is not a function"
    { outcome := .aborted caught 1,
      persisted := record,
      delays := [] }

/-- Outcome of the cancel handler. -/
inductive CancelResult where
  /-- 404: no record with the given id. -/
  | notFound
  /-- 400: cannot cancel a campaign that is not in sending status. -/
  | notSending
  /-- 500: the save was rejected, the catch block reports failure. -/
  | saveRejected
  /-- 200: campaign cancelled successfully. -/
  | ok (record : CampaignRecord)
deriving DecidableEq

/-- Mongoose document save for the PromotionalEmail schema in src:
validation runs by default on save, and the enum option on the status
path rejects any value outside promotionalEmailStatusEnum. -/
def promotionalEmailSaveValid (r : CampaignRecord) : Bool :=
  promotionalEmailStatusEnum.contains r.status

/-- The cancel handler cancelPromotionalEmail (controllers lines 666 to
699): look up the record, reject unless it is in sending status, set
status cancelled, and save.  The handler also assigns an endTime, a path
the schema does not declare, which strict mode drops.  Returns the HTTP
outcome and the persisted record after the call; a save rejected by
schema validation throws, is caught, and leaves the persisted record
unchanged. -/
def cancelPromotionalEmail (record : Option CampaignRecord) (now : JsDate) :
    CancelResult × Option CampaignRecord :=
  match record with
  | none => (.notFound, none)
  | some email =>
    if email.status ≠ "sending" then (.notSending, some email)
    else
      let email1 := { email with status := "cancelled" }
      if promotionalEmailSaveValid email1 then (.ok email1, some email1)
      else (.saveRejected, some email)

/-- JavaScript truthiness of an optional string: null, undefined and the
empty string are falsy. -/
def optTruthy : Option String → Bool
  | none => false
  | some s => s ≠ ""

/-- In-process performance metrics of the EmailService singleton
(utils/email.util.js lines 10 to 14). -/
structure PerformanceMetrics where
  sendTimes : List Nat := []
  errorCount : Nat := 0
  successCount : Nat := 0
deriving DecidableEq

/-- State of the EmailService singleton (utils/email.util.js lines 6 to
15): whether a transporter is cached, the cached active configuration,
and the session metrics. -/
structure EmailServiceState where
  transporter : Bool := false
  currentConfig : Option EmailConfig := none
  performanceMetrics : PerformanceMetrics := {}
deriving DecidableEq

/-- EmailService.initializeTransporter (utils/email.util.js lines 18 to
60): look up the active configuration, run the daily reset, record or
update the originating IP, and reject when the daily limit is already
reached; otherwise cache the transporter and the configuration.
activeConfig is the result of the findOne isActive query. -/
def initializeTransporter (svc : EmailServiceState) (activeConfig : Option EmailConfig)
    (ipAddress : String) (now : JsDate) : Except String EmailServiceState :=
  match activeConfig with
  | none => .error "No active email configuration found"
  | some config =>
    let config := resetDailyCounterIfNeeded config now
    let config :=
      if ipAddress ≠ "" ∧ optTruthy config.lastUsedIP ∧ config.lastUsedIP ≠ some ipAddress
      then recordSuspiciousActivity config ipAddress now
      else { config with lastUsedIP := some ipAddress }
    if config.emailsSentToday ≥ config.dailyLimit then
      .error "Daily email limit reached"
    else
      .ok { svc with transporter := true, currentConfig := some config }

/-- Result of EmailService.sendEmail as seen by its caller. -/
inductive SendEmailResult where
  /-- initializeTransporter threw; the exception escapes to the caller. -/
  | initFailure (message : String)
  /-- the returned object with success true and the send time. -/
  | sent (sendTime : Nat)
  /-- the returned object with success false, the error and the time. -/
  | sendFailed (error : String) (sendTime : Nat)
deriving DecidableEq

/-- EmailService.sendEmail (utils/email.util.js lines 63 to 110).  When
a transporter is already cached the method performs no reset and no
daily-limit check: it goes straight to the transport.  outcome is the
delivery-channel result for this message and sendTime its duration.
The branch where a transporter is cached without a cached configuration
would make the source throw on a null read; it is never reached after a
successful initializeTransporter. -/
def sendEmail (svc : EmailServiceState) (activeConfig : Option EmailConfig)
    (outcome : SendOutcome) (sendTime : Nat) (ipAddress : String) (now : JsDate) :
    SendEmailResult × EmailServiceState :=
  match (if svc.transporter then Except.ok svc
         else initializeTransporter svc activeConfig ipAddress now) with
  | .error msg => (.initFailure msg, svc)
  | .ok svc1 =>
    match svc1.currentConfig with
    | none => (.initFailure "no cached configuration", svc1)
    | some config =>
      if outcome.success then
        (.sent sendTime,
         { svc1 with
           performanceMetrics := { svc1.performanceMetrics with
             sendTimes := svc1.performanceMetrics.sendTimes ++ [sendTime],
             successCount := svc1.performanceMetrics.successCount + 1 },
           currentConfig := some (recordSuccessfulSend config sendTime now) })
      else
        (.sendFailed outcome.errMsg sendTime,
         { svc1 with
           performanceMetrics := { svc1.performanceMetrics with
             errorCount := svc1.performanceMetrics.errorCount + 1 },
           currentConfig := some (recordFailedSend config outcome.errMsg now) })


/-- Concrete fixture: the day before dateB. -/
def dateA : JsDate := ⟨2026, 10, 10, 0⟩

/-- Concrete fixture: a timestamp of the current day. -/
def dateB : JsDate := ⟨2026, 10, 11, 300⟩

/-- Concrete fixture: a later timestamp of the same day as dateB. -/
def dateB2 : JsDate := ⟨2026, 10, 11, 900⟩

/-- Concrete fixture: a sender configuration up to date with dateB. -/
def cfgBase : EmailConfig :=
  { email := "noreply@example.com", appPassword := "secret",
    lastResetDate := dateB, currentMonth := (2026, 10) }

/-- C9: recordFailedSend increments totalEmailsFailed, errorCount and
consecutiveFailures by one each, records the error message and time,
recomputes successRate from the lifetime counters, and leaves
averageSendTime (and the sent counters) unchanged. -/
theorem spec_C9_recordFailedSend_frame (c : EmailConfig) (m : String) (now : JsDate) :
    (recordFailedSend c m now).totalEmailsFailed = c.totalEmailsFailed + 1 ∧
    (recordFailedSend c m now).errorCount = c.errorCount + 1 ∧
    (recordFailedSend c m now).consecutiveFailures = c.consecutiveFailures + 1 ∧
    (recordFailedSend c m now).lastErrorMessage = m ∧
    (recordFailedSend c m now).lastErrorAt = some now ∧
    (recordFailedSend c m now).successRate =
      jsRound (c.totalEmailsSent * 100) (c.totalEmailsSent + (c.totalEmailsFailed + 1)) ∧
    (recordFailedSend c m now).averageSendTime = c.averageSendTime ∧
    (recordFailedSend c m now).totalEmailsSent = c.totalEmailsSent ∧
    (recordFailedSend c m now).emailsSentToday = c.emailsSentToday := by
  refine ⟨rfl, rfl, rfl, rfl, rfl, ?_, rfl, rfl, rfl⟩
  simp only [recordFailedSend, updateSuccessRate]
  rw [if_pos (by omega)]

/-- C7 (amended): recordSuccessfulSend increments the three sent
counters, stamps lastSuccessfulSend, zeroes consecutiveFailures,
recomputes successRate over all lifetime attempts, and updates
averageSendTime to the cumulative running mean when the send time is
non-zero; for the falsy send time 0 it leaves averageSendTime
unchanged. -/
theorem spec_C7_recordSuccessfulSend (c : EmailConfig) (t : Nat) (now : JsDate) :
    (recordSuccessfulSend c t now).totalEmailsSent = c.totalEmailsSent + 1 ∧
    (recordSuccessfulSend c t now).emailsSentToday = c.emailsSentToday + 1 ∧
    (recordSuccessfulSend c t now).monthlyEmailsSent = c.monthlyEmailsSent + 1 ∧
    (recordSuccessfulSend c t now).lastSuccessfulSend = some now ∧
    (recordSuccessfulSend c t now).consecutiveFailures = 0 ∧
    (recordSuccessfulSend c t now).successRate =
      jsRound ((c.totalEmailsSent + 1) * 100) (c.totalEmailsSent + 1 + c.totalEmailsFailed) ∧
    (recordSuccessfulSend c t now).averageSendTime =
      (if t ≠ 0 then
        jsRound (c.averageSendTime * (c.totalEmailsSent + 1 + c.totalEmailsFailed - 1) + t)
          (c.totalEmailsSent + 1 + c.totalEmailsFailed)
       else c.averageSendTime) := by
  by_cases ht : t ≠ 0
  · refine ⟨?_, ?_, ?_, ?_, ?_, ?_, ?_⟩ <;>
      simp only [recordSuccessfulSend, updateSuccessRate, if_pos ht] <;>
      first
        | rfl
        | rw [if_pos (by omega)]
  · refine ⟨?_, ?_, ?_, ?_, ?_, ?_, ?_⟩ <;>
      simp only [recordSuccessfulSend, updateSuccessRate, if_neg ht] <;>
      first
        | rfl
        | rw [if_pos (by omega)]

/-- Concrete fixture for the C7 counterexample: one prior successful
send with a recorded running average of 100 milliseconds. -/
def cfgC7 : EmailConfig := { cfgBase with totalEmailsSent := 1, averageSendTime := 100 }

/-- C7 counterexample: a successful send reported with send time 0 is
falsy for the if sendTime guard, so the source skips the running-mean
update; averageSendTime stays 100 where the formula of the claim yields
jsRound 100 2, that is 50. -/
theorem spec_C7_counterexample :
    (recordSuccessfulSend cfgC7 0 dateB).averageSendTime ≠
      jsRound (cfgC7.averageSendTime *
          (cfgC7.totalEmailsSent + 1 + cfgC7.totalEmailsFailed - 1) + 0)
        (cfgC7.totalEmailsSent + 1 + cfgC7.totalEmailsFailed) := by
  decide

/-- After a reset check, the stored reset date falls on the calendar day
of the check. -/
theorem reset_lastResetDate_day (c : EmailConfig) (d : JsDate) :
    (resetDailyCounterIfNeeded c d).lastResetDate.toDateString = d.toDateString := by
  simp only [resetDailyCounterIfNeeded]
  split_ifs with h1 h2 <;> first | rfl | (push_neg at h1; exact h1.symm)

/-- After a reset check, the stored month is the month of the check. -/
theorem reset_currentMonth (c : EmailConfig) (d : JsDate) :
    (resetDailyCounterIfNeeded c d).currentMonth = d.monthKey := by
  simp only [resetDailyCounterIfNeeded]
  split_ifs with h1 h2 <;> first | rfl | (push_neg at * ; assumption)

/-- A reset check on a configuration already up to date with its day and
month changes nothing at all. -/
theorem reset_noop (c : EmailConfig) (d : JsDate)
    (h1 : d.toDateString = c.lastResetDate.toDateString)
    (h2 : c.currentMonth = d.monthKey) :
    resetDailyCounterIfNeeded c d = c := by
  have hd : ¬ (d.toDateString ≠ c.lastResetDate.toDateString) := by simp [h1]
  have hm : ¬ (c.currentMonth ≠ d.monthKey) := by simp [h2]
  simp only [resetDailyCounterIfNeeded]
  rw [if_neg hd, if_neg hm]

/-- C8: resetDailyCounterIfNeeded is idempotent within the same day and
month: a second call on the same calendar day and month is the identity;
and when lastResetDate falls on an earlier day, a single call zeroes
emailsSentToday and moves lastResetDate to the current date. -/
theorem spec_C8_reset_idempotent (c : EmailConfig) (d d' : JsDate)
    (hday : d'.toDateString = d.toDateString) (hmon : d'.monthKey = d.monthKey) :
    resetDailyCounterIfNeeded (resetDailyCounterIfNeeded c d) d' =
      resetDailyCounterIfNeeded c d ∧
    (c.lastResetDate.toDateString ≠ d.toDateString →
      (resetDailyCounterIfNeeded c d).emailsSentToday = 0 ∧
      (resetDailyCounterIfNeeded c d).lastResetDate = d) := by
  constructor
  · exact reset_noop _ _ (by rw [hday, reset_lastResetDate_day])
      (by rw [reset_currentMonth, hmon])
  · intro h
    have hd : d.toDateString ≠ c.lastResetDate.toDateString := fun he => h he.symm
    simp only [resetDailyCounterIfNeeded]
    rw [if_pos hd]
    split_ifs <;> exact ⟨rfl, rfl⟩

/-- Concrete fixture for the C8 witness: the last reset happened the day
before, with 450 emails already counted for that day. -/
def cfgC8 : EmailConfig := { cfgBase with lastResetDate := dateA, emailsSentToday := 450 }

/-- C8 witness: on the concrete stale configuration the reset zeroes the
daily counter and stamps the current date, and a second reset later the
same day changes nothing. -/
theorem spec_C8_witness :
    (resetDailyCounterIfNeeded cfgC8 dateB).emailsSentToday = 0 ∧
    (resetDailyCounterIfNeeded cfgC8 dateB).lastResetDate = dateB ∧
    resetDailyCounterIfNeeded (resetDailyCounterIfNeeded cfgC8 dateB) dateB2 =
      resetDailyCounterIfNeeded cfgC8 dateB :=
  ⟨((spec_C8_reset_idempotent cfgC8 dateB dateB2 rfl rfl).2 (by decide)).1,
   ((spec_C8_reset_idempotent cfgC8 dateB dateB2 rfl rfl).2 (by decide)).2,
   (spec_C8_reset_idempotent cfgC8 dateB dateB2 rfl rfl).1⟩

/-- C1: when, after the daily reset check, the remaining daily quota
dailyLimit minus emailsSentToday is smaller than the number of valid
recipients, the start handler fails with the quota error, no campaign
record is created, and the persisted configuration is exactly the one
the reset check produced: emailsSentToday is unchanged by the failed
call. -/
theorem spec_C1_quota_preflight
    (title content buttonText buttonLink contactEmail contactPhone : String)
    (cfg : EmailConfig) (students : List Student) (now : JsDate)
    (htitle : title ≠ "") (hcontent : content ≠ "") (hlink : buttonLink ≠ "")
    (hmail : contactEmail ≠ "") (hphone : contactPhone ≠ "")
    (hne : students ≠ [])
    (hq : ((resetDailyCounterIfNeeded cfg now).dailyLimit : Int) -
        ((resetDailyCounterIfNeeded cfg now).emailsSentToday : Int) <
        (students.length : Int)) :
    sendPromotionalEmail title content buttonText buttonLink contactEmail contactPhone
        (some cfg) students now =
      (.quotaExceeded
          (((resetDailyCounterIfNeeded cfg now).dailyLimit : Int) -
            ((resetDailyCounterIfNeeded cfg now).emailsSentToday : Int))
          students.length,
        some (resetDailyCounterIfNeeded cfg now), none) := by
  simp only [sendPromotionalEmail]
  rw [if_neg (by simp [htitle, hcontent, hlink, hmail, hphone])]
  rw [if_neg (by simp [hne])]
  rw [if_pos hq]

/-- Concrete C1 fixture: 495 of 500 daily sends already used. -/
def cfgC1 : EmailConfig := { cfgBase with dailyLimit := 500, emailsSentToday := 495 }

/-- Concrete C1 fixture: ten students with valid addresses. -/
def studentsC1 : List Student :=
  (List.range 10).map (fun _ => ⟨"Alex", "Kumar", "alex@example.com"⟩)

/-- C1 witness: with dailyLimit 500, emailsSentToday 495 and ten
recipients the call fails with the quota error carrying remaining 5 and
needed 10, creates no record, and leaves emailsSentToday at 495. -/
theorem spec_C1_witness :
    sendPromotionalEmail "Offer" "Body" "" "https://x.example" "i@example.com" "123"
        (some cfgC1) studentsC1 dateB =
      (.quotaExceeded 5 10, some cfgC1, none) ∧
    cfgC1.emailsSentToday = 495 := by
  constructor
  · rw [spec_C1_quota_preflight "Offer" "Body" "" "https://x.example" "i@example.com" "123"
      cfgC1 studentsC1 dateB (by decide) (by decide) (by decide) (by decide) (by decide)
      (by decide) (by decide)]
    decide
  · rfl

/-- C10: with a transporter already cached, sendEmail performs neither a
daily-counter reset nor a daily-limit check: whatever the active-config
lookup would return, a successful delivery from a state already at or
over the daily limit still returns success and pushes emailsSentToday
one past its previous value, beyond dailyLimit. -/
theorem spec_C10_sendEmail_no_quota_check (svc : EmailServiceState)
    (lookup : Option EmailConfig) (cfg : EmailConfig) (oc : SendOutcome)
    (t : Nat) (ip : String) (now : JsDate)
    (htr : svc.transporter = true) (hcfg : svc.currentConfig = some cfg)
    (hlimit : cfg.dailyLimit ≤ cfg.emailsSentToday) (hok : oc.success = true) :
    (sendEmail svc lookup oc t ip now).1 = .sent t ∧
    (sendEmail svc lookup oc t ip now).2.currentConfig =
      some (recordSuccessfulSend cfg t now) ∧
    (recordSuccessfulSend cfg t now).emailsSentToday = cfg.emailsSentToday + 1 ∧
    cfg.dailyLimit < (recordSuccessfulSend cfg t now).emailsSentToday := by
  have hsent : (recordSuccessfulSend cfg t now).emailsSentToday =
      cfg.emailsSentToday + 1 := by
    simp only [recordSuccessfulSend, updateSuccessRate]
    split_ifs <;> rfl
  refine ⟨?_, ?_, hsent, by omega⟩ <;>
    simp only [sendEmail, htr, if_pos, hcfg, hok, if_true] <;> rfl

/-- Concrete C10 fixture: daily limit already reached. -/
def cfgC10 : EmailConfig := { cfgBase with dailyLimit := 500, emailsSentToday := 500 }

/-- Concrete C10 fixture: a service with a cached transporter and the
saturated configuration. -/
def svcC10 : EmailServiceState := { transporter := true, currentConfig := some cfgC10 }

/-- C10 witness: at the concrete saturated state a successful delivery
still succeeds and raises emailsSentToday to 501, over the limit of
500. -/
theorem spec_C10_witness :
    (sendEmail svcC10 none ⟨true, ""⟩ 120 "1.2.3.4" dateB).1 = .sent 120 ∧
    (recordSuccessfulSend cfgC10 120 dateB).emailsSentToday = 501 ∧
    cfgC10.dailyLimit < (recordSuccessfulSend cfgC10 120 dateB).emailsSentToday := by
  have h := spec_C10_sendEmail_no_quota_check svcC10 none cfgC10 ⟨true, ""⟩ 120 "1.2.3.4"
    dateB rfl rfl (by decide) rfl
  exact ⟨h.1, by decide, h.2.2.2⟩

/-- Concrete fixture: a campaign of 25 recipients. -/
def studentsC2 : List Student :=
  List.replicate 25 ⟨"Stu", "Dent", "stu@example.com"⟩

/-- Concrete fixture: every delivery succeeds. -/
def outcomesC2 : List SendOutcome := List.replicate 25 ⟨true, ""⟩

/-- Concrete fixture: the record created at acceptance for the
25-recipient campaign (the undeclared create keys already dropped),
still in sending status with the default zero counters. -/
def recordC2 : CampaignRecord :=
  { title := "Campaign", content := "Body", buttonLink := "https://x.example",
    contactEmail := "c@example.com", contactPhone := "123", configUsed := 1,
    status := "sending" }

/-- Concrete fixture: a campaign record still in sending status. -/
def sendingRecordC4 : CampaignRecord :=
  { title := "Campaign", content := "Body", buttonLink := "https://x.example",
    contactEmail := "c@example.com", contactPhone := "123", configUsed := 1,
    status := "sending", sentCount := 10 }

/-- C4 is violated: the status enum of the PromotionalEmail schema in
src has no cancelled member, so the save performed by the cancel handler
fails schema validation even when the campaign is in sending status; the
handler answers through its catch block and the persisted record is
unchanged.  The cancel therefore never succeeds, against the claim that
it succeeds exactly on sending campaigns. -/
theorem spec_C4_cancel_save_rejected :
    sendingRecordC4.status = "sending" ∧
    "cancelled" ∉ promotionalEmailStatusEnum ∧
    cancelPromotionalEmail (some sendingRecordC4) dateB =
      (.saveRejected, some sendingRecordC4) := by
  refine ⟨rfl, by decide, by decide⟩

/-- C6 is violated: the PromotionalEmail schema in src declares neither
totalRecipients nor progress, so under mongoose strict mode the record
persisted by the create call of the start handler carries neither field,
and no schema constraint keeps totalRecipients at least 1; only the
declared paths survive persistence. -/
theorem spec_C6_fields_not_persisted :
    "totalRecipients" ∉ promotionalEmailSchemaFields ∧
    "progress" ∉ promotionalEmailSchemaFields ∧
    persistedKeys promotionalEmailCreateKeys =
      ["title", "content", "buttonText", "buttonLink", "contactEmail", "contactPhone",
       "configUsed", "status"] ∧
    "totalRecipients" ∉ persistedKeys promotionalEmailCreateKeys ∧
    "progress" ∉ persistedKeys promotionalEmailCreateKeys := by
  decide

/-- The cancel of a campaign in sending status leaves the persisted
record unchanged: the save of status cancelled fails the enum validation
of the schema in src. -/
theorem cancel_sending_unchanged (r : CampaignRecord) (now : JsDate)
    (h : r.status = "sending") :
    cancelPromotionalEmail (some r) now = (.saveRejected, some r) := by
  simp only [cancelPromotionalEmail]
  rw [if_neg (by simp [h])]
  rfl

/-- A background run with at least one recipient performs no persisted
write at all: it aborts before any save. -/
theorem background_run_persisted (students : List Student)
    (outcomes : List SendOutcome) (r : CampaignRecord) (h : students ≠ []) :
    (sendEmailsInBackground students outcomes r).persisted = r := by
  cases students with
  | nil => exact absurd rfl h
  | cons a t => rfl

/-- The operations of the repository that write, or try to write, a
persisted PromotionalEmail document after its creation: the cancel
handler and one background sending run.  The start handler only ever
creates records with status sending. -/
inductive CampaignOp where
  | cancel (now : JsDate)
  | backgroundRun (students : List Student) (outcomes : List SendOutcome)
deriving DecidableEq

/-- An operation the controller can actually launch: the background run
is only started for a non-empty recipient list, because the no-students
check (controllers line 345) precedes the create and the launch. -/
def opLaunchable : CampaignOp → Bool
  | .cancel _ => true
  | .backgroundRun students _ => !students.isEmpty

/-- Effect of one operation on the persisted record. -/
def applyCampaignOp (r : CampaignRecord) : CampaignOp → CampaignRecord
  | .cancel now => ((cancelPromotionalEmail (some r) now).2).getD r
  | .backgroundRun students outcomes =>
    (sendEmailsInBackground students outcomes r).persisted

/-- The persisted record after a sequence of operations. -/
def runCampaignOps (r : CampaignRecord) : List CampaignOp → CampaignRecord
  | [] => r
  | op :: ops => runCampaignOps (applyCampaignOp r op) ops

/-- Every launchable operation preserves the sending status of a
persisted record. -/
theorem applyCampaignOp_preserves_sending (r : CampaignRecord) (op : CampaignOp)
    (h : r.status = "sending") (hop : opLaunchable op = true) :
    (applyCampaignOp r op).status = "sending" := by
  cases op with
  | cancel now =>
    simp only [applyCampaignOp, cancel_sending_unchanged r now h, Option.getD]
    exact h
  | backgroundRun students outcomes =>
    have hne : students ≠ [] := by
      cases students with
      | nil => simp [opLaunchable] at hop
      | cons a t => simp
    simp only [applyCampaignOp, background_run_persisted students outcomes r hne]
    exact h

/-- C2 is violated: the batch loop contains no status check at all (the
way a run ends does not depend on the record status, first conjunct),
and against the model src registers the run aborts at batch 1 on the
missing record methods.  In the claimed scenario nothing the claim
promises happens: the cancel request cannot even persist status
cancelled (the enum rejects its save), the persisted status stays
sending rather than cancelled, only batch 1 is ever dispatched, and no
performance-log entry of any batch ever exists (the schema has no such
path). -/
theorem spec_C2_loop_blind_to_cancellation (r : CampaignRecord) (s : String) :
    (sendEmailsInBackground studentsC2 outcomesC2 { r with status := s }).outcome =
      (sendEmailsInBackground studentsC2 outcomesC2 r).outcome ∧
    cancelPromotionalEmail (some recordC2) dateB = (.saveRejected, some recordC2) ∧
    (sendEmailsInBackground studentsC2 outcomesC2 recordC2).outcome =
      .aborted (.typeError "promotionalEmail.addPerformanceLog is not a function") 1 ∧
    (sendEmailsInBackground studentsC2 outcomesC2 recordC2).persisted.status =
      "sending" :=
  ⟨rfl, by decide, by decide, by decide⟩

/-- C3: once a campaign record status is terminal it never changes
again.  This holds of the program, though degenerately: every launchable
operation preserves the sending status of a persisted record (the cancel
save is rejected by the enum of the schema in src, and a background run
with recipients aborts on the missing record methods before any save),
so no persisted record ever reaches the terminal set, and in particular
no operation ever moves a record out of it. -/
theorem spec_C3_status_invariant (r0 : CampaignRecord) (ops : List CampaignOp)
    (h0 : r0.status = "sending") (hops : ∀ op ∈ ops, opLaunchable op = true) :
    (runCampaignOps r0 ops).status = "sending" ∧
    (runCampaignOps r0 ops).status ∉ (["completed", "failed", "cancelled"] : List String) ∧
    (∀ op, opLaunchable op = true →
      (runCampaignOps r0 ops).status ∈ (["completed", "failed", "cancelled"] : List String) →
      applyCampaignOp (runCampaignOps r0 ops) op = runCampaignOps r0 ops) := by
  have hmain : ∀ (l : List CampaignOp) (r : CampaignRecord), r.status = "sending" →
      (∀ op ∈ l, opLaunchable op = true) → (runCampaignOps r l).status = "sending" := by
    intro l
    induction l with
    | nil => intro r h _; exact h
    | cons op rest ih =>
      intro r h hl
      simp only [runCampaignOps]
      exact ih _ (applyCampaignOp_preserves_sending r op h (hl op (by simp)))
        (fun o ho => hl o (by simp [ho]))
  have hs := hmain ops r0 h0 hops
  refine ⟨hs, ?_, ?_⟩
  · rw [hs]; decide
  · intro op hop hterm
    rw [hs] at hterm
    exact absurd hterm (by decide)

/-- C3 witness: starting from the concrete accepted record, a cancel
attempt followed by the 25-recipient background run leaves the persisted
status at sending; the terminal set is never entered. -/
theorem spec_C3_witness :
    (runCampaignOps recordC2 [CampaignOp.cancel dateB,
        CampaignOp.backgroundRun studentsC2 outcomesC2]).status = "sending" ∧
    (runCampaignOps recordC2 [CampaignOp.cancel dateB,
        CampaignOp.backgroundRun studentsC2 outcomesC2]).status ∉
      (["completed", "failed", "cancelled"] : List String) :=
  ⟨(spec_C3_status_invariant recordC2
      [CampaignOp.cancel dateB, CampaignOp.backgroundRun studentsC2 outcomesC2]
      rfl (by decide)).1,
   (spec_C3_status_invariant recordC2
      [CampaignOp.cancel dateB, CampaignOp.backgroundRun studentsC2 outcomesC2]
      rfl (by decide)).2.1⟩

/-- C5 is violated: on the concrete 25-recipient campaign the background
run dispatches only batch 1 and then aborts on the missing
addPerformanceLog method (every send of batch 1 succeeded, so the batch
boundary call is the first throwing one); the catch block addError call
throws again before any save.  No performance-log entry ever exists,
nothing is persisted (the record keeps status sending and counters 0),
and no inter-batch sleep happens. -/
theorem spec_C5_background_aborts :
    (sendEmailsInBackground studentsC2 outcomesC2 recordC2).outcome =
      .aborted (.typeError "promotionalEmail.addPerformanceLog is not a function") 1 ∧
    (sendEmailsInBackground studentsC2 outcomesC2 recordC2).persisted = recordC2 ∧
    (sendEmailsInBackground studentsC2 outcomesC2 recordC2).persisted.status =
      "sending" ∧
    (sendEmailsInBackground studentsC2 outcomesC2 recordC2).persisted.sentCount = 0 ∧
    (sendEmailsInBackground studentsC2 outcomesC2 recordC2).persisted.failedCount = 0 ∧
    (sendEmailsInBackground studentsC2 outcomesC2 recordC2).delays = [] := by
  decide
